import Mathlib

/-!
Shallow embedding of the Carbon-Calculator core: the route table and
`findDistance` from js/routes-data.js, the `Calculator` module
(`_round`, `calculateEmission`, `calculateAllModes`, `calculateSavings`,
`calculateCarbonCredits`, `estimateCreditPrice`) from the same file, and the
static configuration (`EMISSION_FACTORS`, `CARBON_CREDIT`) from js/config.js.

JavaScript numbers are modelled by `JsNum`: an exact rational for every finite
value together with the IEEE special values NaN, positive infinity and negative
infinity.  Finite arithmetic is idealised as exact rational arithmetic; the
special values follow the IEEE rules JavaScript uses (0 * Inf = NaN,
Inf - Inf = NaN, Inf / Inf = NaN, finite / Inf = 0, ...).  IEEE negative zero
is identified with 0 and overflow of finite results to infinity is not
modelled; no verified property depends on either.  `null` results are
modelled by `Option`.
-/

/- The arithmetic of `Rat` is unsealed so that concrete runs of the embedded
functions can be evaluated by `decide` inside the kernel. -/
set_option allowUnsafeReducibility true in
attribute [reducible] Rat.add Rat.sub Rat.neg Rat.mul Rat.div Rat.inv Rat.normalize

/-- JavaScript number: NaN, +Infinity, -Infinity, or an (idealised) finite
rational value. -/
inductive JsNum : Type where
  | nan : JsNum
  | posInf : JsNum
  | negInf : JsNum
  | fin : ℚ → JsNum
deriving DecidableEq

/-- JavaScript `Number.isNaN`. -/
def JsNum.isNaN : JsNum → Bool
  | .nan => true
  | _ => false

/-- JavaScript unary minus. -/
def jsNeg : JsNum → JsNum
  | .nan => .nan
  | .posInf => .negInf
  | .negInf => .posInf
  | .fin q => .fin (-q)

/-- JavaScript addition (IEEE rules for the special values). -/
def jsAdd : JsNum → JsNum → JsNum
  | .nan, _ => .nan
  | _, .nan => .nan
  | .posInf, .negInf => .nan
  | .negInf, .posInf => .nan
  | .posInf, _ => .posInf
  | _, .posInf => .posInf
  | .negInf, _ => .negInf
  | _, .negInf => .negInf
  | .fin a, .fin b => .fin (a + b)

/-- JavaScript subtraction. -/
def jsSub (a b : JsNum) : JsNum := jsAdd a (jsNeg b)

/-- JavaScript multiplication (IEEE rules: 0 * Inf = NaN). -/
def jsMul : JsNum → JsNum → JsNum
  | .nan, _ => .nan
  | _, .nan => .nan
  | .posInf, .posInf => .posInf
  | .posInf, .negInf => .negInf
  | .negInf, .posInf => .negInf
  | .negInf, .negInf => .posInf
  | .posInf, .fin b => if 0 < b then .posInf else if b < 0 then .negInf else .nan
  | .fin a, .posInf => if 0 < a then .posInf else if a < 0 then .negInf else .nan
  | .negInf, .fin b => if 0 < b then .negInf else if b < 0 then .posInf else .nan
  | .fin a, .negInf => if 0 < a then .negInf else if a < 0 then .posInf else .nan
  | .fin a, .fin b => .fin (a * b)

/-- JavaScript division (IEEE rules; the sign of a zero divisor is taken to be
positive, since negative zero is identified with 0). -/
def jsDiv : JsNum → JsNum → JsNum
  | .nan, _ => .nan
  | _, .nan => .nan
  | .posInf, .posInf => .nan
  | .posInf, .negInf => .nan
  | .negInf, .posInf => .nan
  | .negInf, .negInf => .nan
  | .posInf, .fin b => if b < 0 then .negInf else .posInf
  | .negInf, .fin b => if b < 0 then .posInf else .negInf
  | .fin _, .posInf => .fin 0
  | .fin _, .negInf => .fin 0
  | .fin a, .fin b =>
      if b = 0 then (if a = 0 then .nan else if 0 < a then .posInf else .negInf)
      else .fin (a / b)

/-- JavaScript strict less-than (false whenever an operand is NaN). -/
def jsLtb : JsNum → JsNum → Bool
  | .nan, _ => false
  | _, .nan => false
  | .negInf, .negInf => false
  | .negInf, _ => true
  | _, .negInf => false
  | .posInf, _ => false
  | .fin _, .posInf => true
  | .fin a, .fin b => a < b

/-- JavaScript less-or-equal (false whenever an operand is NaN). -/
def jsLeb (a b : JsNum) : Bool := !a.isNaN && !b.isNaN && !(jsLtb b a)

/-- JavaScript `Math.round`: round half toward positive infinity. -/
def mathRound : JsNum → JsNum
  | .nan => .nan
  | .posInf => .posInf
  | .negInf => .negInf
  | .fin q => .fin ((⌊q + 1/2⌋ : ℤ) : ℚ)

/-- JavaScript `Number.EPSILON` = 2^(-52), as an exact rational (the literal
is 2^52). -/
def EPSILON : ℚ := 1 / 4503599627370496

/-- Embeds `Calculator._round`:
`Math.round((Number(value) + Number.EPSILON) * factor) / factor`
with `factor = Math.pow(10, decimals)`. -/
def _round (value : JsNum) (decimals : ℕ) : JsNum :=
  let factor : ℚ := ((10 ^ decimals : ℕ) : ℚ)
  jsDiv (mathRound (jsMul (jsAdd value (.fin EPSILON)) (.fin factor))) (.fin factor)

/-- The finite-value content of `_round`: what `_round (.fin q) d` returns. -/
def roundq (value : ℚ) (decimals : ℕ) : ℚ :=
  ((⌊(value + EPSILON) * ((10 ^ decimals : ℕ) : ℚ) + 1/2⌋ : ℤ) : ℚ) /
    ((10 ^ decimals : ℕ) : ℚ)

/-- Embeds `CONFIG.EMISSION_FACTORS` from js/config.js, as an association list
preserving the JavaScript object-key insertion order. -/
def EMISSION_FACTORS : List (String × ℚ) :=
  [("bicycle", 0), ("car", 12/100), ("bus", 89/1000), ("boat", 96/100)]

/-- The property names a JavaScript object literal inherits from
`Object.prototype` (including the Annex B accessors): property access on the
factor table finds these even though they are not own keys, yielding a
function (or, for the prototype accessor, an object), never a number. -/
def OBJECT_PROTOTYPE_KEYS : List String :=
  ["constructor", "hasOwnProperty", "isPrototypeOf", "propertyIsEnumerable",
   "toLocaleString", "toString", "valueOf", "__proto__",
   "__defineGetter__", "__defineSetter__", "__lookupGetter__", "__lookupSetter__"]

/-- The value a JavaScript property access can produce on the factor table:
an own numeric entry, a member inherited from `Object.prototype`, or
`undefined`. -/
inductive PropValue where
  | num : ℚ → PropValue
  | inherited : PropValue
  | undefined : PropValue
deriving DecidableEq

/-- Property access `CONFIG.EMISSION_FACTORS[transportMode]`, including the
prototype chain: an own key yields its number, an `Object.prototype` member
name yields the inherited function/object, and any other string yields
`undefined`. -/
def lookupFactor (transportMode : String) : PropValue :=
  match (EMISSION_FACTORS.find? (fun p => p.1 == transportMode)).map Prod.snd with
  | some q => .num q
  | none =>
      if OBJECT_PROTOTYPE_KEYS.contains transportMode then .inherited else .undefined

/-- JavaScript `Number(factor)` applied to a found property value: the
inherited functions and objects coerce to NaN. -/
def toNumber : PropValue → JsNum
  | .num q => .fin q
  | .inherited => .nan
  | .undefined => .nan

/-- Embeds `CONFIG.CARBON_CREDIT` from js/config.js. -/
structure CarbonCreditPolicy where
  KG_PER_CREDIT : ℚ
  PRICE_MIN_BRL : ℚ
  PRICE_MAX_BRL : ℚ

def CARBON_CREDIT : CarbonCreditPolicy :=
  { KG_PER_CREDIT := 1000, PRICE_MIN_BRL := 50, PRICE_MAX_BRL := 150 }

/-- Embeds `Calculator.calculateEmission` (CONFIG is always available in the
embedding, so the initial CONFIG guard never fires).  The guard
`typeof factor === 'undefined' || factor === null` fails exactly on
`undefined`, since neither the table values nor the inherited members are
null or undefined. -/
def calculateEmission (distanceKm : JsNum) (transportMode : String) : Option JsNum :=
  if distanceKm.isNaN || jsLtb distanceKm (.fin 0) then none
  else
    match lookupFactor transportMode with
    | .undefined => none
    | factor => some (_round (jsMul distanceKm (toNumber factor)) 2)

/-- Comparison entry `{ mode, emission, percentageVsCar }` built by
`calculateAllModes`. -/
structure ModeEntry where
  mode : String
  emission : Option JsNum
  percentageVsCar : Option JsNum
deriving DecidableEq

/-- The sort comparator of `calculateAllModes`, returning the JavaScript
number the source comparator returns. -/
def comparatorResult (a b : ModeEntry) : JsNum :=
  match a.emission, b.emission with
  | none, none => .fin 0
  | none, some _ => .fin 1
  | some _, none => .fin (-1)
  | some x, some y => jsSub x y

/-- `a` may stay before `b` under the comparator: the comparator result is not
greater than 0 (a NaN result also keeps the order, as in the engines'
stable sorts). -/
def modeLe (a b : ModeEntry) : Bool := !(jsLtb (.fin 0) (comparatorResult a b))

/-- Stable insertion of `x` into `l`: `x` goes before the first element it may
precede. -/
def insertBy (le : α → α → Bool) (x : α) : List α → List α
  | [] => [x]
  | y :: ys => if le x y then x :: y :: ys else y :: insertBy le x ys

/-- Stable insertion sort: models `Array.prototype.sort`, which ES2019 requires
to be a stable sort consistent with the comparator. -/
def sortBy (le : α → α → Bool) : List α → List α
  | [] => []
  | x :: xs => insertBy le x (sortBy le xs)

/-- One entry of the `results` array built in `calculateAllModes`. -/
def modeEntryFor (distanceKm : JsNum) (carEmission : Option JsNum)
    (mode : String) : ModeEntry :=
  let emission := calculateEmission distanceKm mode
  let percentage : Option JsNum :=
    match emission, carEmission with
    | some e, some ce =>
        if jsLtb (.fin 0) ce then
          some (_round (jsMul (jsDiv e ce) (.fin 100)) 2)
        else none
    | _, _ => none
  { mode := mode, emission := emission, percentageVsCar := percentage }

/-- Embeds `Calculator.calculateAllModes`. -/
def calculateAllModes (distanceKm : JsNum) : List ModeEntry :=
  let modes := EMISSION_FACTORS.map Prod.fst
  let carEmission : Option JsNum :=
    if modes.contains "car" then calculateEmission distanceKm "car" else none
  sortBy modeLe (modes.map (modeEntryFor distanceKm carEmission))

/-- Savings result `{ savedKg, percentage }`. -/
structure SavingsResult where
  savedKg : JsNum
  percentage : Option JsNum
deriving DecidableEq

/-- Embeds `Calculator.calculateSavings`. -/
def calculateSavings (emission baselineEmission : JsNum) : Option SavingsResult :=
  if emission.isNaN || baselineEmission.isNaN then none
  else
    let savedKg := _round (jsSub baselineEmission emission) 2
    let percentage : Option JsNum :=
      if jsLtb (.fin 0) baselineEmission then
        some (_round (jsMul (jsDiv savedKg baselineEmission) (.fin 100)) 2)
      else none
    some { savedKg := savedKg, percentage := percentage }

/-- Embeds `Calculator.calculateCarbonCredits`. -/
def calculateCarbonCredits (emissionKg : JsNum) : Option JsNum :=
  if emissionKg.isNaN || jsLtb emissionKg (.fin 0) then none
  else some (_round (jsDiv emissionKg (.fin CARBON_CREDIT.KG_PER_CREDIT)) 4)

/-- Price estimate `{ min, max, average }`. -/
structure PriceEstimate where
  min : JsNum
  max : JsNum
  average : JsNum
deriving DecidableEq

/-- Embeds `Calculator.estimateCreditPrice`.  Note the source computes
`avg = (min + max) / 2` from the unrounded products and only then rounds. -/
def estimateCreditPrice (credits : JsNum) : Option PriceEstimate :=
  if credits.isNaN || jsLtb credits (.fin 0) then none
  else
    let mn := jsMul credits (.fin CARBON_CREDIT.PRICE_MIN_BRL)
    let mx := jsMul credits (.fin CARBON_CREDIT.PRICE_MAX_BRL)
    let avg := jsDiv (jsAdd mn mx) (.fin 2)
    some { min := _round mn 2, max := _round mx 2, average := _round avg 2 }

/-- Route record from js/routes-data.js. -/
structure Route where
  origin : String
  destination : String
  distanceKm : ℚ
deriving DecidableEq

/-- Embeds `RoutesDB.routes`. -/
def routes : List Route :=
  [ ⟨"São Paulo, SP", "Rio de Janeiro, RJ", 430⟩,
    ⟨"São Paulo, SP", "Brasília, DF", 1015⟩,
    ⟨"Rio de Janeiro, RJ", "Brasília, DF", 1148⟩,
    ⟨"São Paulo, SP", "Campinas, SP", 95⟩,
    ⟨"Rio de Janeiro, RJ", "Niterói, RJ", 13⟩,
    ⟨"Belo Horizonte, MG", "Ouro Preto, MG", 100⟩,
    ⟨"São Paulo, SP", "Belo Horizonte, MG", 586⟩,
    ⟨"Salvador, BA", "Feira de Santana, BA", 109⟩,
    ⟨"Salvador, BA", "Brasília, DF", 1120⟩,
    ⟨"Fortaleza, CE", "Natal, RN", 534⟩,
    ⟨"Recife, PE", "João Pessoa, PB", 120⟩,
    ⟨"Recife, PE", "Salvador, BA", 800⟩,
    ⟨"Manaus, AM", "Porto Velho, RO", 880⟩,
    ⟨"Belém, PA", "São Luís, MA", 980⟩,
    ⟨"Curitiba, PR", "Florianópolis, SC", 300⟩,
    ⟨"Porto Alegre, RS", "Florianópolis, SC", 470⟩,
    ⟨"Curitiba, PR", "São Paulo, SP", 408⟩,
    ⟨"Vitória, ES", "Rio de Janeiro, RJ", 520⟩,
    ⟨"Goiânia, GO", "Brasília, DF", 205⟩,
    ⟨"Cuiabá, MT", "Campo Grande, MS", 690⟩,
    ⟨"Campo Grande, MS", "Goiânia, GO", 780⟩,
    ⟨"Manaus, AM", "Belém, PA", 1040⟩,
    ⟨"Teresina, PI", "Fortaleza, CE", 530⟩,
    ⟨"João Pessoa, PB", "Natal, RN", 190⟩,
    ⟨"Aracaju, SE", "Salvador, BA", 330⟩,
    ⟨"Maceió, AL", "Recife, PE", 250⟩,
    ⟨"São Paulo, SP", "Santos, SP", 72⟩,
    ⟨"Rio de Janeiro, RJ", "Petrópolis, RJ", 68⟩,
    ⟨"Belo Horizonte, MG", "Uberlândia, MG", 500⟩,
    ⟨"Ribeirão Preto, SP", "São Paulo, SP", 318⟩,
    ⟨"Campinas, SP", "São José dos Campos, SP", 100⟩,
    ⟨"Porto Velho, RO", "Rio Branco, AC", 507⟩,
    ⟨"Palmas, TO", "Goiânia, GO", 720⟩,
    ⟨"Salvador, BA", "Ilhéus, BA", 275⟩,
    ⟨"Curitiba, PR", "Porto Alegre, RS", 710⟩ ]

/-- The input normalisation of `findDistance`: `String(x).trim().toLowerCase()`.
The route strings only contain ASCII upper-case letters, on which Lean's
`String.toLower` agrees with JavaScript `toLowerCase`. -/
def normalizeCity (s : String) : String := s.trim.toLower

/-- Embeds `RoutesDB.findDistance` (the only falsy strings are empty ones, so
the initial truthiness guard is an emptiness test). -/
def findDistance (origin destination : String) : Option ℚ :=
  if origin == "" || destination == "" then none
  else
    let o := normalizeCity origin
    let d := normalizeCity destination
    (routes.find? (fun r =>
      ((normalizeCity r.origin == o) && (normalizeCity r.destination == d)) ||
      ((normalizeCity r.origin == d) && (normalizeCity r.destination == o)))).map
      (fun r => r.distanceKm)

/-- The ascending-with-nulls-last ordering predicate used to state the claims
about the result order of `calculateAllModes`: valid emissions are compared by
the JavaScript order, a valid entry may precede a null one, and a null entry
never precedes a valid one. -/
def ascOkb (a b : ModeEntry) : Bool :=
  match a.emission, b.emission with
  | some x, some y => jsLeb x y
  | none, some _ => false
  | _, none => true

theorem _round_fin (x : ℚ) (d : ℕ) : _round (.fin x) d = .fin (roundq x d) := by
  have h10 : (((10 ^ d : ℕ) : ℚ)) ≠ 0 := by positivity
  simp [_round, roundq, jsAdd, jsMul, mathRound, jsDiv, h10]

theorem roundq_mono {x y : ℚ} (d : ℕ) (h : x ≤ y) : roundq x d ≤ roundq y d := by
  have h10 : (0:ℚ) < ((10 ^ d : ℕ) : ℚ) := by positivity
  have hfl : ((⌊(x + EPSILON) * ((10 ^ d : ℕ) : ℚ) + 1/2⌋ : ℤ) : ℚ) ≤
      ((⌊(y + EPSILON) * ((10 ^ d : ℕ) : ℚ) + 1/2⌋ : ℤ) : ℚ) := by
    have : (x + EPSILON) * ((10 ^ d : ℕ) : ℚ) + 1/2 ≤
        (y + EPSILON) * ((10 ^ d : ℕ) : ℚ) + 1/2 := by nlinarith
    exact_mod_cast Int.floor_le_floor this
  unfold roundq
  exact div_le_div_of_nonneg_right hfl h10.le

theorem jsLeb_fin (x y : ℚ) : jsLeb (.fin x) (.fin y) = decide (x ≤ y) := by
  by_cases h : x ≤ y
  · simp [jsLeb, JsNum.isNaN, jsLtb, h, not_lt.mpr h]
  · simp [jsLeb, JsNum.isNaN, jsLtb, h, lt_of_not_le h]

theorem modeLe_fin {a b : ModeEntry} {x y : ℚ}
    (ha : a.emission = some (.fin x)) (hb : b.emission = some (.fin y)) :
    modeLe a b = decide (x ≤ y) := by
  have hiff : (0 < x + -y) ↔ ¬ (x ≤ y) := by
    constructor <;> intro hh <;> linarith
  by_cases h : x ≤ y
  · simp [modeLe, comparatorResult, ha, hb, jsSub, jsNeg, jsAdd, jsLtb, hiff, h]
  · simp [modeLe, comparatorResult, ha, hb, jsSub, jsNeg, jsAdd, jsLtb, hiff, h]

theorem ascOkb_fin {a b : ModeEntry} {x y : ℚ}
    (ha : a.emission = some (.fin x)) (hb : b.emission = some (.fin y)) :
    ascOkb a b = decide (x ≤ y) := by
  simp [ascOkb, ha, hb, jsLeb_fin]

theorem calculateEmission_fin (q f : ℚ) (m : String) (h : ¬ q < 0)
    (hf : lookupFactor m = .num f) :
    calculateEmission (.fin q) m = some (.fin (roundq (q * f) 2)) := by
  simp [calculateEmission, JsNum.isNaN, jsLtb, h, hf, toNumber, jsMul, _round_fin]

theorem insertBy_perm (le : α → α → Bool) (x : α) :
    ∀ l : List α, (insertBy le x l).Perm (x :: l) := by
  intro l
  induction l with
  | nil => simp [insertBy]
  | cons y ys ih =>
      by_cases h : le x y = true
      · simp [insertBy, h]
      · simp only [insertBy, h, if_false]
        exact (ih.cons y).trans (List.Perm.swap x y ys)

theorem sortBy_perm (le : α → α → Bool) : ∀ l : List α, (sortBy le l).Perm l := by
  intro l
  induction l with
  | nil => simp [sortBy]
  | cons x xs ih => exact (insertBy_perm le x (sortBy le xs)).trans (ih.cons x)

theorem insertBy_eq_cons (le : α → α → Bool) (x : α) (l : List α)
    (h : ∀ y ∈ l, le x y = true) : insertBy le x l = x :: l := by
  cases l with
  | nil => rfl
  | cons y ys => simp [insertBy, h y (by simp)]

theorem find?_ext (p q : α → Bool) (h : ∀ x, p x = q x) :
    ∀ l : List α, l.find? p = l.find? q := by
  intro l
  induction l with
  | nil => rfl
  | cons x xs ih => simp [List.find?, h x, ih]

theorem estimateCreditPrice_fin (q : ℚ) (hq : ¬ q < 0) :
    estimateCreditPrice (.fin q) =
      some { min := .fin (roundq (q * 50) 2), max := .fin (roundq (q * 150) 2),
             average := .fin (roundq ((q * 50 + q * 150) / 2) 2) } := by
  have h2 : (2:ℚ) ≠ 0 := by norm_num
  simp [estimateCreditPrice, JsNum.isNaN, jsLtb, hq, CARBON_CREDIT,
    jsMul, jsAdd, jsDiv, h2, _round_fin]

/-- C3: with the configured factor table (car factor 0.12), kgPerCredit = 1000,
priceMin = 50 and priceMax = 150, the concrete scenario holds:
calculateEmission 430 "car" = 51.60, calculateSavings 51.60 51.60 has
savedKg = 0, calculateCarbonCredits 51.60 = 0.0516, and
estimateCreditPrice 0.0516 = (min 2.58, max 7.74, average 5.16). -/
theorem claim_C3 :
    calculateEmission (.fin 430) "car" = some (.fin (516/10)) ∧
    (calculateSavings (.fin (516/10)) (.fin (516/10))).map (fun s => s.savedKg) =
      some (.fin 0) ∧
    calculateCarbonCredits (.fin (516/10)) = some (.fin (516/10000)) ∧
    estimateCreditPrice (.fin (516/10000)) =
      some { min := .fin (258/100), max := .fin (774/100), average := .fin (516/100) } := by
  decide

/-- C1 counterexample: at credits = 0.0001 the code returns min = 0.01,
max = 0.02 and average = 0.01, while the round-then-average formula of the
claim, round((0.01 + 0.02) / 2, 2), gives 0.02.  The source computes the
average from the unrounded products, so the claim as stated is false. -/
theorem claim_C1_cex :
    estimateCreditPrice (.fin (1/10000)) =
      some { min := .fin (1/100), max := .fin (2/100), average := .fin (1/100) } ∧
    _round (jsDiv (jsAdd (.fin (1/100)) (.fin (2/100))) (.fin 2)) 2 = .fin (2/100) ∧
    JsNum.fin (1/100) ≠ JsNum.fin (2/100) := by
  refine ⟨by decide, by decide, by decide⟩

/-- C1 (amended): for every non-negative finite credits value c,
estimatePrice(c) returns min = round(c × 50, 2), max = round(c × 150, 2) and
average = round((c × 50 + c × 150) / 2, 2): the average is computed from the
unrounded intermediate products (average-then-round), not from the rounded
min and max. -/
theorem claim_C1 : ∀ q : ℚ, 0 ≤ q →
    estimateCreditPrice (.fin q) =
      some { min := .fin (roundq (q * 50) 2), max := .fin (roundq (q * 150) 2),
             average := .fin (roundq ((q * 50 + q * 150) / 2) 2) } := by
  intro q hq
  exact estimateCreditPrice_fin q (not_lt.mpr hq)

/-- C1 witness: the amended claim instantiated at credits = 1. -/
theorem claim_C1_witness :
    estimateCreditPrice (.fin 1) =
      some { min := .fin 50, max := .fin 150, average := .fin 100 } := by
  rw [claim_C1 1 (by norm_num)]
  decide

/-- C2 counterexample: calculateEmission(430, "toString") finds the method
inherited from Object.prototype, passes the undefined/null guard, multiplies
by NaN and returns NaN — not the null the claim requires for a mode that is
not a key of the factor table — and calculateEmission(Infinity, "car")
returns Infinity, not the null the claim requires for a non-finite
distance. -/
theorem claim_C2_cex :
    calculateEmission (.fin 430) "toString" = some .nan ∧
    calculateEmission .posInf "car" = some .posInf := by
  exact ⟨by decide, by decide⟩

/-- C2 (amended): computeEmission(distanceKm, mode) returns Invalid (null) if
and only if distanceKm is NaN or negative, or the property access for mode
finds nothing, i.e. mode is neither a key of the Emission Factor Table nor a
property name inherited from Object.prototype; computeEmission(NaN, mode) and
computeEmission(-1, mode) are Invalid for every mode, and for an own key with
a non-NaN, non-negative distance the result is round(distanceKm × factor, 2).
Two families of inputs the original claim calls Invalid are not: a +Infinity
distance yields round(Infinity × factor, 2) (+Infinity, or NaN for the zero
factor), and an inherited property name such as "toString" passes the
undefined/null guard and yields NaN. -/
theorem claim_C2 :
    (∀ d m, calculateEmission d m = none ↔
      (d.isNaN = true ∨ jsLtb d (.fin 0) = true ∨ lookupFactor m = .undefined)) ∧
    (∀ m, calculateEmission .nan m = none ∧ calculateEmission (.fin (-1)) m = none) ∧
    (∀ d m f, lookupFactor m = .num f → d.isNaN = false → jsLtb d (.fin 0) = false →
      calculateEmission d m = some (_round (jsMul d (.fin f)) 2)) ∧
    (∀ d m, lookupFactor m = .inherited → d.isNaN = false → jsLtb d (.fin 0) = false →
      calculateEmission d m = some .nan) := by
  refine ⟨?_, ?_, ?_, ?_⟩
  · intro d m
    rcases hE : lookupFactor m with f | _ | _ <;>
      cases hN : d.isNaN <;> cases hL : jsLtb d (.fin 0) <;>
        simp [calculateEmission, hN, hL, hE]
  · intro m
    refine ⟨by simp [calculateEmission, JsNum.isNaN], ?_⟩
    have h1 : jsLtb (.fin (-1)) (.fin 0) = true := by decide
    simp [calculateEmission, h1]
  · intro d m f hf hN hL
    simp [calculateEmission, hN, hL, hf, toNumber]
  · intro d m hf hN hL
    have hnan : jsMul d (toNumber .inherited) = .nan := by cases d <;> rfl
    have hr : _round .nan 2 = .nan := rfl
    simp [calculateEmission, hN, hL, hf, hnan, hr]

/-- C2 witness: the own-key branch of the amended claim at distance 430 and
mode "car", and the inherited-name branch at distance 1 and mode "valueOf",
where the result is NaN. -/
theorem claim_C2_witness :
    calculateEmission (.fin 430) "car" =
      some (_round (jsMul (.fin 430) (.fin (12/100))) 2) ∧
    calculateEmission (.fin 1) "valueOf" = some .nan := by
  exact ⟨claim_C2.2.2.1 (.fin 430) "car" (12/100) (by decide) rfl (by decide),
    claim_C2.2.2.2 (.fin 1) "valueOf" (by decide) rfl (by decide)⟩

/-- C7 counterexample: calculateSavings(Infinity, 100) returns a record with
savedKg = -Infinity and percentage = -Infinity, not Invalid/null, because the
source only rejects NaN inputs and never checks finiteness. -/
theorem claim_C7_cex :
    calculateSavings .posInf (.fin 100) =
      some { savedKg := .negInf, percentage := some .negInf } := by
  decide

/-- C7 (amended): computeSavings(emission, baseline) returns Invalid (null) if
and only if either input is NaN (infinite inputs are not rejected); otherwise
it returns savedKg = round(baseline - emission, 2) and percentage =
round(savedKg / baseline × 100, 2) when baseline > 0 and percentage = null
otherwise, with savedKg allowed to be negative when emission exceeds the
baseline. -/
theorem claim_C7 :
    (∀ e b, calculateSavings e b = none ↔ (e.isNaN = true ∨ b.isNaN = true)) ∧
    (∀ e b, e.isNaN = false → b.isNaN = false →
      calculateSavings e b = some
        { savedKg := (_round (jsSub b e) 2),
          percentage := if jsLtb (.fin 0) b then
              some (_round (jsMul (jsDiv (_round (jsSub b e) 2) b) (.fin 100)) 2)
            else none }) ∧
    calculateSavings (.fin 10) (.fin 5) =
      some { savedKg := .fin (-5), percentage := some (.fin (-100)) } := by
  refine ⟨?_, ?_, by decide⟩
  · intro e b
    cases hE : e.isNaN <;> cases hB : b.isNaN <;> simp [calculateSavings, hE, hB]
  · intro e b hE hB
    simp [calculateSavings, hE, hB]

/-- C7 witness: the valid branch of the amended claim at emission 2 and
baseline 10. -/
theorem claim_C7_witness :
    calculateSavings (.fin 2) (.fin 10) =
      some { savedKg := .fin 8, percentage := some (.fin 80) } := by
  rw [claim_C7.2.1 (.fin 2) (.fin 10) rfl rfl]
  decide

/-- C8: findDistance is commutative for all input strings, not only table
pairs: the emptiness guard and the per-record match condition are symmetric in
the two inputs, and the forward scan visits the records in the same order for
both argument orders. -/
theorem claim_C8 : ∀ a b : String, findDistance a b = findDistance b a := by
  intro a b
  unfold findDistance
  rw [Bool.or_comm (b == "") (a == "")]
  by_cases hg : (a == "" || b == "") = true
  · simp [hg]
  · simp only [hg, Bool.false_eq_true, if_false]
    exact congrArg (Option.map fun r => r.distanceKm)
      (find?_ext _ _ (fun r => Bool.or_comm _ _) routes)

/-- C9: whenever estimateCreditPrice returns a non-null result under the
configured policy (priceMin = 50 ≤ priceMax = 150), the result satisfies
min ≤ average ≤ max, and the rounding function is monotone non-decreasing on
finite values. -/
theorem claim_C9 :
    (∀ c r, estimateCreditPrice c = some r →
      jsLeb r.min r.average = true ∧ jsLeb r.average r.max = true) ∧
    (∀ x y : ℚ, ∀ d : ℕ, x ≤ y →
      jsLeb (_round (.fin x) d) (_round (.fin y) d) = true) := by
  have hmono : ∀ x y : ℚ, ∀ d : ℕ, x ≤ y →
      jsLeb (_round (.fin x) d) (_round (.fin y) d) = true := by
    intro x y d hxy
    rw [_round_fin, _round_fin, jsLeb_fin, decide_eq_true_eq]
    exact roundq_mono d hxy
  refine ⟨?_, hmono⟩
  intro c r h
  cases c with
  | nan => simp [estimateCreditPrice, JsNum.isNaN] at h
  | negInf => simp [estimateCreditPrice, jsLtb] at h
  | posInf =>
      have he : estimateCreditPrice .posInf =
          some { min := .posInf, max := .posInf, average := .posInf } := by decide
      rw [he] at h
      obtain rfl : r = { min := .posInf, max := .posInf, average := .posInf } :=
        (Option.some_inj.mp h).symm
      exact ⟨by decide, by decide⟩
  | fin q =>
      by_cases hq : q < 0
      · simp [estimateCreditPrice, JsNum.isNaN, jsLtb, hq] at h
      · rw [estimateCreditPrice_fin q hq] at h
        obtain rfl : r =
            { min := .fin (roundq (q * 50) 2), max := .fin (roundq (q * 150) 2),
              average := .fin (roundq ((q * 50 + q * 150) / 2) 2) } :=
          (Option.some_inj.mp h).symm
        have hq0 : 0 ≤ q := not_lt.mp hq
        constructor
        · show jsLeb (.fin (roundq (q * 50) 2)) (.fin (roundq ((q * 50 + q * 150) / 2) 2)) = true
          rw [jsLeb_fin, decide_eq_true_eq]
          exact roundq_mono 2 (by linarith)
        · show jsLeb (.fin (roundq ((q * 50 + q * 150) / 2) 2)) (.fin (roundq (q * 150) 2)) = true
          rw [jsLeb_fin, decide_eq_true_eq]
          exact roundq_mono 2 (by linarith)

/-- C9 witness: the invariant instantiated at credits = 1, where the estimate
is (min 50, max 150, average 100), and the monotonicity part at 0 ≤ 1. -/
theorem claim_C9_witness :
    (jsLeb (JsNum.fin 50) (JsNum.fin 100) = true ∧
      jsLeb (JsNum.fin 100) (JsNum.fin 150) = true) ∧
    jsLeb (_round (.fin 0) 2) (_round (.fin 1) 2) = true := by
  constructor
  · exact claim_C9.1 (.fin 1)
      { min := .fin 50, max := .fin 150, average := .fin 100 } (by decide)
  · exact claim_C9.2 0 1 2 (by norm_num)

set_option maxRecDepth 10000 in
/-- C4: for every record (A, B, d) of the shipped route table, findDistance
returns d for both argument orders. -/
theorem claim_C4 : ∀ r ∈ routes,
    findDistance r.origin r.destination = some r.distanceKm ∧
    findDistance r.destination r.origin = some r.distanceKm := by
  with_unfolding_all decide

/-- C4 witness: the first table record, São Paulo to Rio de Janeiro, 430 km,
in both directions. -/
theorem claim_C4_witness :
    findDistance "São Paulo, SP" "Rio de Janeiro, RJ" = some 430 ∧
    findDistance "Rio de Janeiro, RJ" "São Paulo, SP" = some 430 := by
  exact claim_C4 ⟨"São Paulo, SP", "Rio de Janeiro, RJ", 430⟩
    (by simp only [routes]; exact List.mem_cons_self _ _)

theorem allModes_eq (d : JsNum) :
    calculateAllModes d = sortBy modeLe
      [modeEntryFor d (calculateEmission d "car") "bicycle",
       modeEntryFor d (calculateEmission d "car") "car",
       modeEntryFor d (calculateEmission d "car") "bus",
       modeEntryFor d (calculateEmission d "car") "boat"] := by
  with_unfolding_all rfl

theorem modeEntryFor_mode (d : JsNum) (ce : Option JsNum) (m : String) :
    (modeEntryFor d ce m).mode = m := rfl

theorem modeEntryFor_emission (d : JsNum) (ce : Option JsNum) (m : String) :
    (modeEntryFor d ce m).emission = calculateEmission d m := rfl

theorem modeEntryFor_none {d : JsNum} {ce : Option JsNum} {m : String}
    (h : calculateEmission d m = none) :
    modeEntryFor d ce m = ⟨m, none, none⟩ := by
  cases ce <;> simp [modeEntryFor, h]

theorem pct_swap (A B : Option JsNum) :
    (match A, B with
     | some e, some ce =>
        if jsLtb (.fin 0) ce then some (_round (jsMul (jsDiv e ce) (.fin 100)) 2)
        else none
     | _, _ => (none : Option JsNum)) =
    (match B, A with
     | some ce, some em =>
        if jsLtb (.fin 0) ce then some (_round (jsMul (jsDiv em ce) (.fin 100)) 2)
        else none
     | _, _ => (none : Option JsNum)) := by
  rcases A <;> rcases B <;> rfl

theorem insertBy_skip (le : α → α → Bool) (x y : α) (ys : List α)
    (h : le x y = false) :
    insertBy le x (y :: ys) = y :: insertBy le x ys := by
  simp [insertBy, h]

theorem sortBy_four {E0 E1 E2 E3 : ModeEntry} {x0 x1 x2 x3 : ℚ}
    (h0 : E0.emission = some (.fin x0)) (h1 : E1.emission = some (.fin x1))
    (h2 : E2.emission = some (.fin x2)) (h3 : E3.emission = some (.fin x3))
    (h01 : x0 ≤ x1) (h02 : x0 ≤ x2) (h03 : x0 ≤ x3)
    (h21 : x2 ≤ x1) (h13 : x1 ≤ x3) :
    sortBy modeLe [E0, E1, E2, E3] =
      if x1 ≤ x2 then [E0, E1, E2, E3] else [E0, E2, E1, E3] := by
  have h23 : x2 ≤ x3 := le_trans h21 h13
  have hs2 : sortBy modeLe [E2, E3] = [E2, E3] := by
    show insertBy modeLe E2 (sortBy modeLe [E3]) = _
    show insertBy modeLe E2 [E3] = _
    apply insertBy_eq_cons
    intro y hy
    rw [List.mem_singleton] at hy
    subst hy
    rw [modeLe_fin h2 h3]
    exact decide_eq_true h23
  by_cases h12 : x1 ≤ x2
  · rw [if_pos h12]
    have hs3 : sortBy modeLe [E1, E2, E3] = [E1, E2, E3] := by
      show insertBy modeLe E1 (sortBy modeLe [E2, E3]) = _
      rw [hs2]
      apply insertBy_eq_cons
      intro y hy
      simp only [List.mem_cons, List.mem_singleton, List.not_mem_nil, or_false] at hy
      rcases hy with rfl | rfl
      · rw [modeLe_fin h1 h2]; exact decide_eq_true h12
      · rw [modeLe_fin h1 h3]; exact decide_eq_true h13
    show insertBy modeLe E0 (sortBy modeLe [E1, E2, E3]) = _
    rw [hs3]
    apply insertBy_eq_cons
    intro y hy
    simp only [List.mem_cons, List.mem_singleton, List.not_mem_nil, or_false] at hy
    rcases hy with rfl | rfl | rfl
    · rw [modeLe_fin h0 h1]; exact decide_eq_true h01
    · rw [modeLe_fin h0 h2]; exact decide_eq_true h02
    · rw [modeLe_fin h0 h3]; exact decide_eq_true h03
  · rw [if_neg h12]
    have hs3 : sortBy modeLe [E1, E2, E3] = [E2, E1, E3] := by
      show insertBy modeLe E1 (sortBy modeLe [E2, E3]) = _
      rw [hs2]
      rw [insertBy_skip _ _ _ _ (by rw [modeLe_fin h1 h2]; exact decide_eq_false h12)]
      congr 1
      apply insertBy_eq_cons
      intro y hy
      rw [List.mem_singleton] at hy
      subst hy
      rw [modeLe_fin h1 h3]
      exact decide_eq_true h13
    show insertBy modeLe E0 (sortBy modeLe [E1, E2, E3]) = _
    rw [hs3]
    apply insertBy_eq_cons
    intro y hy
    simp only [List.mem_cons, List.mem_singleton, List.not_mem_nil, or_false] at hy
    rcases hy with rfl | rfl | rfl
    · rw [modeLe_fin h0 h2]; exact decide_eq_true h02
    · rw [modeLe_fin h0 h1]; exact decide_eq_true h01
    · rw [modeLe_fin h0 h3]; exact decide_eq_true h03

theorem pairwise_asc_four {E0 E1 E2 E3 : ModeEntry} {x0 x1 x2 x3 : ℚ}
    (h0 : E0.emission = some (.fin x0)) (h1 : E1.emission = some (.fin x1))
    (h2 : E2.emission = some (.fin x2)) (h3 : E3.emission = some (.fin x3))
    (h01 : x0 ≤ x1) (h02 : x0 ≤ x2) (h03 : x0 ≤ x3)
    (h12 : x1 ≤ x2) (h13 : x1 ≤ x3) (h23 : x2 ≤ x3) :
    List.Pairwise (fun a b => ascOkb a b = true) [E0, E1, E2, E3] := by
  refine List.Pairwise.cons ?_ (List.Pairwise.cons ?_
    (List.Pairwise.cons ?_ (List.Pairwise.cons ?_ List.Pairwise.nil)))
  · intro y hy
    simp only [List.mem_cons, List.mem_singleton, List.not_mem_nil, or_false] at hy
    rcases hy with rfl | rfl | rfl
    · rw [ascOkb_fin h0 h1]; exact decide_eq_true h01
    · rw [ascOkb_fin h0 h2]; exact decide_eq_true h02
    · rw [ascOkb_fin h0 h3]; exact decide_eq_true h03
  · intro y hy
    simp only [List.mem_cons, List.mem_singleton, List.not_mem_nil, or_false] at hy
    rcases hy with rfl | rfl
    · rw [ascOkb_fin h1 h2]; exact decide_eq_true h12
    · rw [ascOkb_fin h1 h3]; exact decide_eq_true h13
  · intro y hy
    rw [List.mem_singleton] at hy
    subst hy
    rw [ascOkb_fin h2 h3]; exact decide_eq_true h23
  · intro y hy
    exact absurd hy (List.not_mem_nil y)

theorem emission_isNone_false {E : ModeEntry} {x : ℚ}
    (h : E.emission = some (.fin x)) : E.emission.isNone = false := by
  rw [h]; rfl

/-- C5 (amended): for every distanceKm other than +Infinity,
compareAllModes(distanceKm) returns exactly one entry per key of the factor
table, ordered ascending by emission value with Invalid/null-emission entries
after all valid entries and kept in insertion order relative to each other,
and when distanceKm is a finite positive number the zero-factor mode
"bicycle" is the first entry.  At distanceKm = +Infinity the emissions are
NaN (bicycle) and +Infinity (the rest), the comparator returns NaN on every
pair, and the insertion-ordered output is not ascending under the JavaScript
order, so the original claim fails there. -/
theorem claim_C5 : ∀ d : JsNum, d ≠ .posInf →
    ((calculateAllModes d).map (fun e => e.mode)).Perm (EMISSION_FACTORS.map Prod.fst) ∧
    (calculateAllModes d).Pairwise (fun a b => ascOkb a b = true) ∧
    List.Sublist (((calculateAllModes d).filter (fun e => e.emission.isNone)).map
      (fun e => e.mode)) (EMISSION_FACTORS.map Prod.fst) ∧
    (∀ q : ℚ, d = .fin q → 0 < q →
      (calculateAllModes d).head?.map (fun e => e.mode) = some "bicycle") := by
  have hinv : ∀ d : JsNum, calculateAllModes d =
      [⟨"bicycle", none, none⟩, ⟨"car", none, none⟩,
       ⟨"bus", none, none⟩, ⟨"boat", none, none⟩] →
      ((calculateAllModes d).map (fun e => e.mode)).Perm (EMISSION_FACTORS.map Prod.fst) ∧
      (calculateAllModes d).Pairwise (fun a b => ascOkb a b = true) ∧
      List.Sublist (((calculateAllModes d).filter (fun e => e.emission.isNone)).map
        (fun e => e.mode)) (EMISSION_FACTORS.map Prod.fst) := by
    intro d hd
    rw [hd]
    exact ⟨by decide, by decide, by decide⟩
  intro d hd
  cases d with
  | posInf => exact absurd rfl hd
  | nan =>
      have h := hinv .nan (by decide)
      exact ⟨h.1, h.2.1, h.2.2, fun q hq => by cases hq⟩
  | negInf =>
      have h := hinv .negInf (by decide)
      exact ⟨h.1, h.2.1, h.2.2, fun q hq => by cases hq⟩
  | fin q =>
      by_cases hq : q < 0
      · have hmodes : calculateAllModes (.fin q) =
            [⟨"bicycle", none, none⟩, ⟨"car", none, none⟩,
             ⟨"bus", none, none⟩, ⟨"boat", none, none⟩] := by
          have he : ∀ m, calculateEmission (.fin q) m = none := by
            intro m
            simp [calculateEmission, JsNum.isNaN, jsLtb, hq]
          rw [allModes_eq, modeEntryFor_none (he _), modeEntryFor_none (he _),
            modeEntryFor_none (he _), modeEntryFor_none (he _)]
          decide
        have h := hinv _ hmodes
        refine ⟨h.1, h.2.1, h.2.2, ?_⟩
        intro q' hq' hpos
        cases hq'
        exact absurd hq (by linarith)
      · have hq0 : 0 ≤ q := not_lt.mp hq
        have h0 : (modeEntryFor (.fin q) (calculateEmission (.fin q) "car")
            "bicycle").emission = some (.fin (roundq (q * 0) 2)) :=
          (modeEntryFor_emission _ _ _).trans (calculateEmission_fin q 0 _ hq (by decide))
        have h1 : (modeEntryFor (.fin q) (calculateEmission (.fin q) "car")
            "car").emission = some (.fin (roundq (q * (12/100)) 2)) :=
          (modeEntryFor_emission _ _ _).trans (calculateEmission_fin q _ _ hq (by decide))
        have h2 : (modeEntryFor (.fin q) (calculateEmission (.fin q) "car")
            "bus").emission = some (.fin (roundq (q * (89/1000)) 2)) :=
          (modeEntryFor_emission _ _ _).trans (calculateEmission_fin q _ _ hq (by decide))
        have h3 : (modeEntryFor (.fin q) (calculateEmission (.fin q) "car")
            "boat").emission = some (.fin (roundq (q * (96/100)) 2)) :=
          (modeEntryFor_emission _ _ _).trans (calculateEmission_fin q _ _ hq (by decide))
        have h01 : roundq (q * 0) 2 ≤ roundq (q * (12/100)) 2 :=
          roundq_mono 2 (by nlinarith)
        have h02 : roundq (q * 0) 2 ≤ roundq (q * (89/1000)) 2 :=
          roundq_mono 2 (by nlinarith)
        have h03 : roundq (q * 0) 2 ≤ roundq (q * (96/100)) 2 :=
          roundq_mono 2 (by nlinarith)
        have h21 : roundq (q * (89/1000)) 2 ≤ roundq (q * (12/100)) 2 :=
          roundq_mono 2 (by nlinarith)
        have h13 : roundq (q * (12/100)) 2 ≤ roundq (q * (96/100)) 2 :=
          roundq_mono 2 (by nlinarith)
        have h23 : roundq (q * (89/1000)) 2 ≤ roundq (q * (96/100)) 2 :=
          roundq_mono 2 (by nlinarith)
        rw [allModes_eq, sortBy_four h0 h1 h2 h3 h01 h02 h03 h21 h13]
        by_cases h12 : roundq (q * (12/100)) 2 ≤ roundq (q * (89/1000)) 2
        · rw [if_pos h12]
          refine ⟨?_, ?_, ?_, ?_⟩
          · simp only [List.map_cons, List.map_nil, modeEntryFor_mode]
            decide
          · exact pairwise_asc_four h0 h1 h2 h3 h01 h02 h03 h12 h13 h23
          · simp only [List.filter, emission_isNone_false h0, emission_isNone_false h1,
              emission_isNone_false h2, emission_isNone_false h3, List.map_nil]
            exact List.nil_sublist _
          · intro q' hq' hpos
            rfl
        · rw [if_neg h12]
          have h12' : roundq (q * (89/1000)) 2 ≤ roundq (q * (12/100)) 2 := h21
          refine ⟨?_, ?_, ?_, ?_⟩
          · simp only [List.map_cons, List.map_nil, modeEntryFor_mode]
            decide
          · exact pairwise_asc_four h0 h2 h1 h3 h02 h01 h03 h12' h23 h13
          · simp only [List.filter, emission_isNone_false h0, emission_isNone_false h1,
              emission_isNone_false h2, emission_isNone_false h3, List.map_nil]
            exact List.nil_sublist _
          · intro q' hq' hpos
            rfl

theorem modeEntryFor_pct (d : JsNum) (ce : Option JsNum) (m : String) :
    (modeEntryFor d ce m).percentageVsCar =
      match calculateEmission d m, ce with
      | some e, some c =>
          if jsLtb (.fin 0) c then some (_round (jsMul (jsDiv e c) (.fin 100)) 2)
          else none
      | _, _ => none := rfl

/-- C5 counterexample: at distanceKm = +Infinity the first entry (bicycle)
has emission NaN, which is not null yet compares below nothing, so the output
is not ordered ascending by emission value. -/
theorem claim_C5_cex :
    ¬ (calculateAllModes .posInf).Pairwise (fun a b => ascOkb a b = true) := by
  decide

/-- C5 witness: the amended claim instantiated at distanceKm = 430. -/
theorem claim_C5_witness :
    ((calculateAllModes (.fin 430)).map (fun e => e.mode)).Perm
      (EMISSION_FACTORS.map Prod.fst) ∧
    (calculateAllModes (.fin 430)).Pairwise (fun a b => ascOkb a b = true) ∧
    (calculateAllModes (.fin 430)).head?.map (fun e => e.mode) = some "bicycle" := by
  obtain ⟨hp, hw, hs, hh⟩ := claim_C5 (.fin 430) (by decide)
  exact ⟨hp, hw, hh 430 rfl (by norm_num)⟩

/-- C6 (amended): in every entry of compareAllModes(distanceKm),
percentageVsCar equals round((emission / referenceEmission) × 100, 2) exactly
when the reference emission computed for mode "car" is non-null and > 0 under
the JavaScript order (which admits +Infinity, where the percentage is then
NaN) and this entry's own emission is non-null; in every other case it is
null.  The original claim's "positive finite" is wrong: the code tests only
`carEmission > 0`, which +Infinity passes. -/
theorem claim_C6 : ∀ d : JsNum, ∀ e ∈ calculateAllModes d,
    e.percentageVsCar =
      match calculateEmission d "car", e.emission with
      | some ce, some em =>
          if jsLtb (.fin 0) ce then some (_round (jsMul (jsDiv em ce) (.fin 100)) 2)
          else none
      | _, _ => none := by
  intro d e he
  rw [allModes_eq] at he
  have hmem := (sortBy_perm modeLe _).mem_iff.mp he
  simp only [List.mem_cons, List.mem_singleton, List.not_mem_nil, or_false] at hmem
  rcases hmem with rfl | rfl | rfl | rfl <;>
    (rw [modeEntryFor_pct, modeEntryFor_emission]; exact pct_swap _ _)

/-- C6 counterexample: at distanceKm = +Infinity the reference emission is
+Infinity (not a positive finite number), yet every percentageVsCar is
some NaN rather than the null the claim requires. -/
theorem claim_C6_cex :
    calculateEmission .posInf "car" = some .posInf ∧
    (calculateAllModes .posInf).map (fun e => e.percentageVsCar) =
      [some .nan, some .nan, some .nan, some .nan] :=
  ⟨by decide, by decide⟩

/-- C6 witness: the amended claim instantiated at distanceKm = 430 and the
car entry of the result, whose percentage evaluates to 100. -/
theorem claim_C6_witness :
    (⟨"car", some (.fin (516/10)), some (.fin 100)⟩ : ModeEntry).percentageVsCar =
      some (.fin 100) := by
  have h := claim_C6 (.fin 430) ⟨"car", some (.fin (516/10)), some (.fin 100)⟩ (by decide)
  rw [h]
  decide

/-- C10 (amended): for every finite distanceKm > 0 whose rounded car
emission round(0.12 × d, 2) is positive, the entry for mode "car" in
compareAllModes(distanceKm) has percentageVsCar exactly 100.  When the car
emission rounds to 0 (for example d = 0.01) the percentage is null instead,
so the original unconditional claim fails. -/
theorem claim_C10 : ∀ q : ℚ, 0 < q → 0 < roundq (q * (12/100)) 2 →
    ∀ e ∈ calculateAllModes (.fin q), e.mode = "car" →
      e.percentageVsCar = some (.fin 100) := by
  intro q hq hce e he hm
  have hq' : ¬ q < 0 := by linarith
  rw [allModes_eq] at he
  have hmem := (sortBy_perm modeLe _).mem_iff.mp he
  simp only [List.mem_cons, List.mem_singleton, List.not_mem_nil, or_false] at hmem
  have hcar : calculateEmission (.fin q) "car" =
      some (.fin (roundq (q * (12/100)) 2)) :=
    calculateEmission_fin q _ _ hq' (by decide)
  rcases hmem with rfl | rfl | rfl | rfl
  · rw [modeEntryFor_mode] at hm
    exact absurd hm (by decide)
  · rw [modeEntryFor_pct, hcar]
    show (if jsLtb (.fin 0) (.fin (roundq (q * (12/100)) 2)) then
        some (_round (jsMul (jsDiv (.fin (roundq (q * (12/100)) 2))
          (.fin (roundq (q * (12/100)) 2))) (.fin 100)) 2)
      else none) = some (.fin 100)
    have hlt : jsLtb (.fin 0) (.fin (roundq (q * (12/100)) 2)) = true := by
      show decide ((0:ℚ) < roundq (q * (12/100)) 2) = true
      exact decide_eq_true hce
    rw [hlt, if_pos rfl]
    have hne : roundq (q * (12/100)) 2 ≠ 0 := ne_of_gt hce
    have hdiv : jsDiv (.fin (roundq (q * (12/100)) 2))
        (.fin (roundq (q * (12/100)) 2)) = .fin 1 := by
      simp [jsDiv, hne, div_self hne]
    rw [hdiv]
    have h100 : jsMul (JsNum.fin 1) (.fin 100) = .fin 100 := by
      show JsNum.fin (1 * 100) = .fin 100
      norm_num
    rw [h100, _round_fin, show roundq 100 2 = (100:ℚ) from by decide]
  · rw [modeEntryFor_mode] at hm
    exact absurd hm (by decide)
  · rw [modeEntryFor_mode] at hm
    exact absurd hm (by decide)

/-- C10 counterexample: d = 0.01 is finite and positive, but the car
emission 0.0012 rounds to 0, so the car entry's percentageVsCar is null,
not 100. -/
theorem claim_C10_cex :
    (0:ℚ) < 1/100 ∧
    calculateAllModes (.fin (1/100)) =
      [⟨"bicycle", some (.fin 0), none⟩, ⟨"car", some (.fin 0), none⟩,
       ⟨"bus", some (.fin 0), none⟩, ⟨"boat", some (.fin (1/100)), none⟩] :=
  ⟨by norm_num, by decide⟩

/-- C10 witness: the amended claim instantiated at d = 430, where the car
emission is 51.6 > 0 and the car entry carries percentage 100. -/
theorem claim_C10_witness :
    (0:ℚ) < 430 ∧ (0:ℚ) < roundq (430 * (12/100)) 2 ∧
    (⟨"car", some (.fin (516/10)), some (.fin 100)⟩ : ModeEntry).percentageVsCar =
      some (.fin 100) := by
  refine ⟨by norm_num, by decide, ?_⟩
  exact claim_C10 430 (by norm_num) (by decide)
    ⟨"car", some (.fin (516/10)), some (.fin 100)⟩ (by decide) rfl
